import Mathlib

/-!
Verification of `tensor2tensor/tpu/tpu_trainer_lib.py`, a configuration-assembly
module: `create_run_config`, `create_estimator`, `create_experiment`,
`create_experiment_fn` and `add_problem_hparams`.  External framework objects
(session configs, TPU configs, estimators, experiments, input functions) are
shallowly embedded as records capturing exactly the arguments the source passes
to their constructors.  Python integers are modelled as `Int`, Python `None` as
`Option.none`, the empty device-info dict as `Option.none`, and raised
exceptions as an error value.
-/

namespace TpuTrainerLib

/-- Model of Python's substring test `needle in haystack`, first: does
`needle` occur at the head of `haystack`. -/
def listStartsWith : List Char → List Char → Bool
  | [], _ => true
  | _ :: _, [] => false
  | n :: ns, h :: hs => n == h && listStartsWith ns hs

/-- Does `needle` occur contiguously anywhere in `haystack`? -/
def listContainsSub (needle : List Char) : List Char → Bool
  | [] => listStartsWith needle []
  | h :: hs => listStartsWith needle (h :: hs) || listContainsSub needle hs

/-- Model of Python's `needle in haystack` on strings: contiguous substring
occurrence. -/
def strContains (haystack needle : String) : Bool :=
  listContainsSub needle.data haystack.data

/-- Model of Python's `s.split(sep)` for a single separator character, on
character lists: splits at every occurrence of `sep`, keeping empty pieces. -/
def splitOnChar (sep : Char) : List Char → List (List Char)
  | [] => [[]]
  | c :: cs =>
    match splitOnChar sep cs with
    | [] => if c == sep then [[], []] else [[c]]
    | r :: rs => if c == sep then [] :: r :: rs else (c :: r) :: rs

/-- Model of Python's `s.split("-")`. -/
def splitDash (s : String) : List String :=
  (splitOnChar (Char.ofNat 45) s.data).map (fun cs => String.mk cs)

/-- `tf.ConfigProto(allow_soft_placement=..., log_device_placement=...)`,
capturing the two arguments the source passes. -/
structure SessionConfig where
  allow_soft_placement : Bool
  log_device_placement : Bool
  deriving DecidableEq, Repr

/-- `tf.contrib.tpu.TPUConfig(...)`: the three arguments the source passes. -/
structure TPUConfig where
  iterations_per_loop : Int
  num_shards : Int
  per_host_input_for_training : Bool
  deriving DecidableEq, Repr

/-- The `t2t_device_info` dict that `create_run_config` attaches in the
non-TPU case. -/
structure DeviceInfo where
  num_gpus : Int
  gpu_order : String
  shard_to_cpu : Bool
  num_shards : Int
  num_async_replicas : Int
  deriving DecidableEq, Repr

/-- The run configuration object built by `create_run_config`.  `master` and
`tpu_config` are present (`some`) exactly on the TPU path; `t2t_device_info`
is `none` when the attached dict is the empty dict `{}`. -/
structure RunConfig where
  model_dir : Option String
  session_config : SessionConfig
  save_summary_steps : Int
  save_checkpoints_steps : Int
  master : Option String
  tpu_config : Option TPUConfig
  use_tpu : Bool
  t2t_device_info : Option DeviceInfo
  deriving DecidableEq, Repr

/-- Embedding of `create_run_config` (src/tensor2tensor/tpu/tpu_trainer_lib.py,
lines 30-77). -/
def create_run_config (master : String) (model_dir : Option String)
    (iterations_per_loop : Int) (num_shards : Int)
    (log_device_placement : Bool) (save_checkpoints_steps : Int)
    (num_gpus : Int) (gpu_order : String) (shard_to_cpu : Bool)
    (num_async_replicas : Int) (use_tpu : Bool) : RunConfig :=
  let session_config : SessionConfig :=
    { allow_soft_placement := true, log_device_placement := log_device_placement }
  { model_dir := model_dir
    session_config := session_config
    save_summary_steps := 0
    save_checkpoints_steps := save_checkpoints_steps
    master := if use_tpu then some master else none
    tpu_config :=
      if use_tpu then
        some { iterations_per_loop := iterations_per_loop
               num_shards := num_shards
               per_host_input_for_training := decide (num_shards ≤ 8) }
      else none
    use_tpu := use_tpu
    t2t_device_info :=
      if use_tpu then none
      else
        some { num_gpus := num_gpus
               gpu_order := gpu_order
               shard_to_cpu := shard_to_cpu
               num_shards := max 1 (num_gpus + (if shard_to_cpu then 1 else 0))
               num_async_replicas := num_async_replicas } }

/-- A problem registered in the global registry: an externally defined
dataset/task, abstracted to an identity. -/
structure Problem where
  pid : Nat
  deriving DecidableEq, Repr

/-- Per-problem hyperparameters returned by the external
`problem.get_hparams(hparams)` call: we record which problem derived them and
the base hyperparameter fields it saw. -/
structure PHParams where
  source_problem : Problem
  base_tpu_batch_size_per_shard : Int
  base_data_dir : Option String
  deriving DecidableEq, Repr

/-- The mutable hyperparameters object.  `data_dir` is `none` before
`create_experiment` attaches it; `problems` and `problem_instances` are the
lists `add_problem_hparams` resets and fills. -/
structure HParams where
  tpu_batch_size_per_shard : Int
  data_dir : Option String
  problems : List PHParams
  problem_instances : List Problem
  deriving DecidableEq, Repr

/-- Modelled from the spec: the external problem capability derives
problem-specific hyperparameters from the base hyperparameters
(`problem.get_hparams(hparams)`, defined outside this file); we record the
problem together with the base fields it was derived from. -/
def Problem.get_hparams (p : Problem) (h : HParams) : PHParams :=
  { source_problem := p
    base_tpu_batch_size_per_shard := h.tpu_batch_size_per_shard
    base_data_dir := h.data_dir }

/-- The global name-to-problem registry, abstracted as a partial map. -/
abbrev Registry := String → Option Problem

/-- Modelled from the spec: `registry.problem(name)` fails with a lookup
error naming the missing problem when `name` was never registered. -/
def lookupErrorMsg (name : String) : String :=
  name ++ " never registered"

/-- `t2t_model.T2TModel.make_estimator_model_fn(model_name, hparams, use_tpu=...)`
is external to this file; we record the arguments the source passes. -/
structure ModelFn where
  model_name : String
  hparams : HParams
  use_tpu : Bool
  deriving DecidableEq, Repr

/-- `tf.contrib.tpu.TPUEstimator(...)`: the arguments the source passes. -/
structure TPUEstimator where
  model_fn : ModelFn
  model_dir : Option String
  config : RunConfig
  train_batch_size : Int
  eval_batch_size : Option Int
  deriving DecidableEq, Repr

/-- `tf.estimator.Estimator(...)`: the arguments the source passes. -/
structure GenericEstimator where
  model_fn : ModelFn
  model_dir : Option String
  config : RunConfig
  deriving DecidableEq, Repr

/-- The estimator returned by `create_estimator`: TPU or generic. -/
inductive Estimator where
  | tpu (e : TPUEstimator)
  | generic (e : GenericEstimator)
  deriving DecidableEq, Repr

/-- Embedding of `create_estimator` (lines 80-107).  On the TPU path the
Python code reads `run_config.tpu_config.num_shards`; when the run config has
no `tpu_config` that attribute access raises, modelled as `Except.error`. -/
def create_estimator (model_name : String) (hparams : HParams)
    (run_config : RunConfig) (schedule : String) (use_tpu : Bool) :
    Except String Estimator :=
  let model_fn : ModelFn :=
    { model_name := model_name, hparams := hparams, use_tpu := use_tpu }
  if use_tpu then
    match run_config.tpu_config with
    | none => Except.error "AttributeError: tpu_config"
    | some tc =>
      let batch_size := hparams.tpu_batch_size_per_shard * tc.num_shards
      let eval_batch_size : Option Int :=
        if strContains schedule "eval" then some (batch_size * 2) else none
      Except.ok (Estimator.tpu
        { model_fn := model_fn
          model_dir := run_config.model_dir
          config := run_config
          train_batch_size := batch_size
          eval_batch_size := eval_batch_size })
  else
    Except.ok (Estimator.generic
      { model_fn := model_fn
        model_dir := run_config.model_dir
        config := run_config })

/-- The loop body of `add_problem_hparams` (lines 157-162): for each name,
look the problem up, derive its hyperparameters from the current (mutated)
hyperparameters, and append both.  The returned pair is the hyperparameters
object as mutated so far together with the lookup error, if one was raised:
Python mutation keeps the appends made before the failing name. -/
def add_problem_hparams_loop (reg : Registry) (h : HParams) :
    List String → HParams × Option String
  | [] => (h, none)
  | name :: rest =>
    match reg name with
    | none => (h, some (lookupErrorMsg name))
    | some problem =>
      let p_hparams := Problem.get_hparams problem h
      add_problem_hparams_loop reg
        { h with problem_instances := h.problem_instances ++ [problem]
                 problems := h.problems ++ [p_hparams] }
        rest

/-- Embedding of `add_problem_hparams` (lines 153-162): reset both problem
lists, then run the loop over the hyphen-separated names. -/
def add_problem_hparams (reg : Registry) (hparams : HParams)
    (problems : String) : HParams × Option String :=
  add_problem_hparams_loop reg
    { hparams with problems := [], problem_instances := [] }
    (splitDash problems)

/-- The two estimator execution modes the source uses. -/
inductive ModeKey where
  | TRAIN
  | EVAL
  deriving DecidableEq, Repr

/-- Modelled from the spec: `problem.make_estimator_input_fn(mode, hparams)`
(external) produces an input function for an execution mode; we record the
arguments. -/
structure InputFn where
  mode : ModeKey
  problem : Problem
  hparams : HParams
  deriving DecidableEq, Repr

/-- `tf.contrib.learn.Experiment(...)`: the arguments the source passes. -/
structure Experiment where
  estimator : Estimator
  train_input_fn : InputFn
  eval_input_fn : InputFn
  train_steps : Int
  eval_steps : Int
  min_eval_frequency : Int
  train_steps_per_iteration : Int
  deriving DecidableEq, Repr

/-- Embedding of `create_experiment` (lines 110-141): attach `data_dir`,
attach problem hyperparameters (propagating a lookup error uncaught), build
the estimator, derive the two input functions from the first problem instance
(an empty list would raise an index error), and assemble the experiment. -/
def create_experiment (reg : Registry) (run_config : RunConfig)
    (hparams : HParams) (model_name : String) (problem_name : String)
    (data_dir : String) (train_steps : Int) (eval_steps : Int)
    (min_eval_frequency : Int) (schedule : String) (use_tpu : Bool) :
    Except String Experiment :=
  let hparams := { hparams with data_dir := some data_dir }
  match add_problem_hparams reg hparams problem_name with
  | (_, some e) => Except.error e
  | (hparams, none) =>
    match create_estimator model_name hparams run_config schedule use_tpu with
    | Except.error e => Except.error e
    | Except.ok estimator =>
      match hparams.problem_instances with
      | [] => Except.error "IndexError: problem_instances"
      | problem :: _ =>
        Except.ok
          { estimator := estimator
            train_input_fn :=
              { mode := ModeKey.TRAIN, problem := problem, hparams := hparams }
            eval_input_fn :=
              { mode := ModeKey.EVAL, problem := problem, hparams := hparams }
            train_steps := train_steps
            eval_steps := eval_steps
            min_eval_frequency := min_eval_frequency
            train_steps_per_iteration := min_eval_frequency }

/-- Embedding of `create_experiment_fn` (lines 144-150): returns a closure
that forwards the run configuration and hyperparameters, followed by the
captured extra arguments, to `create_experiment`. -/
def create_experiment_fn (reg : Registry) (model_name : String)
    (problem_name : String) (data_dir : String) (train_steps : Int)
    (eval_steps : Int) (min_eval_frequency : Int) (schedule : String)
    (use_tpu : Bool) : RunConfig → HParams → Except String Experiment :=
  fun run_config hparams =>
    create_experiment reg run_config hparams model_name problem_name data_dir
      train_steps eval_steps min_eval_frequency schedule use_tpu

/-- Look up every name in the registry, in order; `none` when any is
missing.  Spec-side helper used to phrase the theorems about
`add_problem_hparams`. -/
def registryLookupAll (reg : Registry) : List String → Option (List Problem)
  | [] => some []
  | n :: rest =>
    match reg n with
    | none => none
    | some p =>
      match registryLookupAll reg rest with
      | none => none
      | some ps => some (p :: ps)

/-! Concrete inputs used to exercise the definitions. -/

/-- A concrete registry holding two problems, `probA` and `probB`. -/
def sampleReg : Registry := fun n =>
  if n = "probA" then some (Problem.mk 0)
  else if n = "probB" then some (Problem.mk 1)
  else none

/-- A concrete hyperparameters object with `tpu_batch_size_per_shard = 16`. -/
def sampleHP : HParams :=
  { tpu_batch_size_per_shard := 16
    data_dir := none
    problems := []
    problem_instances := [] }

/-- A concrete TPU-mode run configuration with 8 shards. -/
def sampleTpuRC : RunConfig :=
  create_run_config "" none 1000 8 false 1000 1 "" false 1 true

/-- A concrete generic-mode run configuration. -/
def sampleGenRC : RunConfig :=
  create_run_config "" none 1000 8 false 1000 1 "" false 1 false

/-- The hyperparameters object after `create_experiment` has attached
`data_dir` and the problem lists for `"probA"`. -/
def sampleHPAttached : HParams :=
  { tpu_batch_size_per_shard := 16
    data_dir := some "/data"
    problems :=
      [{ source_problem := Problem.mk 0
         base_tpu_batch_size_per_shard := 16
         base_data_dir := some "/data" }]
    problem_instances := [Problem.mk 0] }

/-- The experiment assembled by `create_experiment` on the concrete inputs of
the witnesses below. -/
def sampleExperiment : Experiment :=
  { estimator := Estimator.generic
      { model_fn :=
          { model_name := "m", hparams := sampleHPAttached, use_tpu := false }
        model_dir := none
        config := sampleGenRC }
    train_input_fn :=
      { mode := ModeKey.TRAIN, problem := Problem.mk 0, hparams := sampleHPAttached }
    eval_input_fn :=
      { mode := ModeKey.EVAL, problem := Problem.mk 0, hparams := sampleHPAttached }
    train_steps := 1000
    eval_steps := 100
    min_eval_frequency := 500
    train_steps_per_iteration := 500 }

/-- The invariant asserted of `create_run_config` by the specification: the
accelerator shard count in the resulting configuration is at least 1, and so
is the generic replica count. -/
def run_config_claimed_invariant : Prop :=
  ∀ (master : String) (model_dir : Option String)
    (iterations_per_loop num_shards : Int) (log_device_placement : Bool)
    (save_checkpoints_steps num_gpus : Int) (gpu_order : String)
    (shard_to_cpu : Bool) (num_async_replicas : Int) (use_tpu : Bool),
    (∀ tc : TPUConfig,
      (create_run_config master model_dir iterations_per_loop num_shards
        log_device_placement save_checkpoints_steps num_gpus gpu_order
        shard_to_cpu num_async_replicas use_tpu).tpu_config = some tc →
      1 ≤ tc.num_shards) ∧
    (∀ di : DeviceInfo,
      (create_run_config master model_dir iterations_per_loop num_shards
        log_device_placement save_checkpoints_steps num_gpus gpu_order
        shard_to_cpu num_async_replicas use_tpu).t2t_device_info = some di →
      1 ≤ di.num_async_replicas)

/-! Sanity checks on the embedding at concrete inputs. -/

example : strContains "train_and_evaluate" "eval" = true := rfl
example : strContains "train" "eval" = false := rfl
example : splitDash "probA-probB" = ["probA", "probB"] := rfl
example : splitDash "probA" = ["probA"] := rfl
example : splitDash "" = [""] := rfl

/-! Helper lemmas about the `add_problem_hparams` loop. -/

theorem get_hparams_lists_irrelevant (p : Problem) (h : HParams)
    (ps : List PHParams) (qs : List Problem) :
    Problem.get_hparams p { h with problems := ps, problem_instances := qs } =
      Problem.get_hparams p h := rfl

theorem add_problem_hparams_loop_ok (reg : Registry) :
    ∀ (names : List String) (h : HParams) (ps : List Problem),
    registryLookupAll reg names = some ps →
    add_problem_hparams_loop reg h names =
      ({ h with
           problem_instances := h.problem_instances ++ ps,
           problems := h.problems ++
             ps.map (fun p => Problem.get_hparams p h) }, none) := by
  intro names
  induction names with
  | nil =>
    intro h ps hps
    simp only [registryLookupAll, Option.some.injEq] at hps
    subst hps
    simp [add_problem_hparams_loop]
  | cons n rest ih =>
    intro h ps hps
    simp only [registryLookupAll] at hps
    cases hn : reg n with
    | none => rw [hn] at hps; exact absurd hps (by simp)
    | some p =>
      rw [hn] at hps
      cases hrest : registryLookupAll reg rest with
      | none => rw [hrest] at hps; exact absurd hps (by simp)
      | some ps' =>
        rw [hrest] at hps
        simp only [Option.some.injEq] at hps
        subst hps
        simp only [add_problem_hparams_loop, hn]
        rw [ih _ ps' hrest]
        simp [Problem.get_hparams, List.append_assoc]

theorem add_problem_hparams_loop_err (reg : Registry) :
    ∀ (pre : List String) (bad : String) (post : List String) (h : HParams)
      (ps : List Problem),
    registryLookupAll reg pre = some ps →
    reg bad = none →
    add_problem_hparams_loop reg h (pre ++ bad :: post) =
      ({ h with
           problem_instances := h.problem_instances ++ ps,
           problems := h.problems ++
             ps.map (fun p => Problem.get_hparams p h) },
       some (lookupErrorMsg bad)) := by
  intro pre
  induction pre with
  | nil =>
    intro bad post h ps hps hbad
    simp only [registryLookupAll, Option.some.injEq] at hps
    subst hps
    simp [add_problem_hparams_loop, hbad]
  | cons n rest ih =>
    intro bad post h ps hps hbad
    simp only [registryLookupAll] at hps
    cases hn : reg n with
    | none => rw [hn] at hps; exact absurd hps (by simp)
    | some p =>
      rw [hn] at hps
      cases hrest : registryLookupAll reg rest with
      | none => rw [hrest] at hps; exact absurd hps (by simp)
      | some ps' =>
        rw [hrest] at hps
        simp only [Option.some.injEq] at hps
        subst hps
        simp only [List.cons_append, add_problem_hparams_loop, hn]
        simp only [List.append_eq]
        rw [ih bad post _ ps' hrest hbad]
        simp [Problem.get_hparams, List.append_assoc]

theorem registryLookupAll_length (reg : Registry) :
    ∀ (names : List String) (ps : List Problem),
    registryLookupAll reg names = some ps → ps.length = names.length := by
  intro names
  induction names with
  | nil =>
    intro ps hps
    simp only [registryLookupAll, Option.some.injEq] at hps
    subst hps; rfl
  | cons n rest ih =>
    intro ps hps
    simp only [registryLookupAll] at hps
    cases hn : reg n with
    | none => rw [hn] at hps; exact absurd hps (by simp)
    | some p =>
      rw [hn] at hps
      cases hrest : registryLookupAll reg rest with
      | none => rw [hrest] at hps; exact absurd hps (by simp)
      | some ps' =>
        rw [hrest] at hps
        simp only [Option.some.injEq] at hps
        subst hps
        simp [ih ps' hrest]

/-! Claim theorems. -/

/-- Claim C1: in TPU mode `create_estimator` sets the evaluation batch size
to `None` exactly when the substring `"eval"` does not occur in the schedule
string, and otherwise leaves the doubled evaluation batch size in place. -/
theorem eval_batch_size_suppressed_iff (model_name : String) (hparams : HParams)
    (rc : RunConfig) (schedule : String) (e : TPUEstimator)
    (hok : create_estimator model_name hparams rc schedule true =
      Except.ok (Estimator.tpu e)) :
    (e.eval_batch_size = none ↔ strContains schedule "eval" = false) ∧
    (strContains schedule "eval" = true →
      e.eval_batch_size = some (e.train_batch_size * 2)) := by
  unfold create_estimator at hok
  cases htc : rc.tpu_config with
  | none => rw [htc] at hok; simp at hok
  | some tc =>
    rw [htc] at hok
    by_cases hs : strContains schedule "eval" = true
    · simp only [hs, if_true, reduceIte] at hok
      simp at hok
      subst hok
      simp [hs]
    · simp [hs] at hok
      subst hok
      simp [hs, Bool.not_eq_true] at *

/-- Witness for C1 at schedule `"train"`, per-shard batch size 16 and 8
shards: the evaluation batch size is suppressed. -/
theorem eval_batch_size_suppressed_iff_witness :
    (create_estimator "m" sampleHP sampleTpuRC "train" true =
      Except.ok (Estimator.tpu
        { model_fn := { model_name := "m", hparams := sampleHP, use_tpu := true }
          model_dir := none
          config := sampleTpuRC
          train_batch_size := 128
          eval_batch_size := none })) ∧
    ((none : Option Int) = none ↔ strContains "train" "eval" = false) ∧
    (strContains "train" "eval" = true →
      (none : Option Int) = some ((128 : Int) * 2)) := by
  refine ⟨rfl, ?_⟩
  exact eval_batch_size_suppressed_iff "m" sampleHP sampleTpuRC "train"
    { model_fn := { model_name := "m", hparams := sampleHP, use_tpu := true }
      model_dir := none
      config := sampleTpuRC
      train_batch_size := 128
      eval_batch_size := none } rfl

/-- Claim C2: in TPU mode the training batch size equals
`tpu_batch_size_per_shard` times the run configuration's shard count, and the
evaluation batch size, when present, is exactly twice the training batch
size. -/
theorem tpu_batch_size_formula (model_name : String) (hparams : HParams)
    (rc : RunConfig) (schedule : String) (tc : TPUConfig) (e : TPUEstimator)
    (htc : rc.tpu_config = some tc)
    (hok : create_estimator model_name hparams rc schedule true =
      Except.ok (Estimator.tpu e)) :
    e.train_batch_size = hparams.tpu_batch_size_per_shard * tc.num_shards ∧
    ∀ b : Int, e.eval_batch_size = some b → b = e.train_batch_size * 2 := by
  unfold create_estimator at hok
  rw [htc] at hok
  by_cases hs : strContains schedule "eval" = true
  · simp [hs] at hok
    subst hok
    simp
  · simp [hs] at hok
    subst hok
    simp

/-- Witness for C2 with `tpu_batch_size_per_shard = 16`, 8 shards and
schedule `"train_and_evaluate"`: training batch size 128, evaluation batch
size 256. -/
theorem tpu_batch_size_formula_witness :
    sampleTpuRC.tpu_config = some
      { iterations_per_loop := 1000, num_shards := 8,
        per_host_input_for_training := true } ∧
    (create_estimator "m" sampleHP sampleTpuRC "train_and_evaluate" true =
      Except.ok (Estimator.tpu
        { model_fn := { model_name := "m", hparams := sampleHP, use_tpu := true }
          model_dir := none
          config := sampleTpuRC
          train_batch_size := 128
          eval_batch_size := some 256 })) ∧
    ((128 : Int) = 16 * 8 ∧
      ∀ b : Int, (some (256 : Int) = some b → b = 128 * 2)) ∧
    (128 : Int) = sampleHP.tpu_batch_size_per_shard * 8 := by
  refine ⟨rfl, rfl, ?_, rfl⟩
  exact tpu_batch_size_formula "m" sampleHP sampleTpuRC "train_and_evaluate"
    { iterations_per_loop := 1000, num_shards := 8,
      per_host_input_for_training := true }
    { model_fn := { model_name := "m", hparams := sampleHP, use_tpu := true }
      model_dir := none
      config := sampleTpuRC
      train_batch_size := 128
      eval_batch_size := some 256 } rfl rfl

/-- Claim C3 as stated is false: `create_run_config` passes the requested
accelerator shard count through unvalidated, so with `num_shards = 0` the
resulting accelerator sub-record has shard count 0, not at least 1. -/
theorem run_config_claimed_invariant_refuted : ¬ run_config_claimed_invariant := by
  intro hcl
  have h := (hcl "" none 1000 0 false 1000 1 "" false 1 true).1
    { iterations_per_loop := 1000, num_shards := 0,
      per_host_input_for_training := true } rfl
  exact absurd h (by decide)

/-- Claim C3 (amended): the only count the builder's arithmetic floors at 1
is the generic device-info shard count, computed as
`max(1, num_gpus + int(shard_to_cpu))`; the generic replica count is passed
through unvalidated. -/
theorem device_info_shard_count_ge_one (master : String)
    (model_dir : Option String) (iterations_per_loop num_shards : Int)
    (log_device_placement : Bool) (save_checkpoints_steps num_gpus : Int)
    (gpu_order : String) (shard_to_cpu : Bool) (num_async_replicas : Int)
    (di : DeviceInfo)
    (hdi : (create_run_config master model_dir iterations_per_loop num_shards
      log_device_placement save_checkpoints_steps num_gpus gpu_order
      shard_to_cpu num_async_replicas false).t2t_device_info = some di) :
    1 ≤ di.num_shards ∧ di.num_async_replicas = num_async_replicas := by
  simp [create_run_config] at hdi
  subst hdi
  exact ⟨le_max_left 1 _, rfl⟩

/-- Witness for the amended C3 at a concrete generic-mode configuration. -/
theorem device_info_shard_count_ge_one_witness :
    sampleGenRC.t2t_device_info = some
      { num_gpus := 1, gpu_order := "", shard_to_cpu := false,
        num_shards := 1, num_async_replicas := 1 } ∧
    ((1 : Int) ≤ 1 ∧ (1 : Int) = 1) := by
  refine ⟨rfl, ?_⟩
  exact device_info_shard_count_ge_one "" none 1000 8 false 1000 1 "" false 1
    { num_gpus := 1, gpu_order := "", shard_to_cpu := false,
      num_shards := 1, num_async_replicas := 1 } rfl

/-- Claim C7: in generic mode the attached device-info shard count is the GPU
count plus one when CPU-sharding is enabled and the GPU count otherwise,
floored at 1. -/
theorem device_info_shard_count_formula (master : String)
    (model_dir : Option String) (iterations_per_loop num_shards : Int)
    (log_device_placement : Bool) (save_checkpoints_steps num_gpus : Int)
    (gpu_order : String) (shard_to_cpu : Bool) (num_async_replicas : Int)
    (di : DeviceInfo)
    (hdi : (create_run_config master model_dir iterations_per_loop num_shards
      log_device_placement save_checkpoints_steps num_gpus gpu_order
      shard_to_cpu num_async_replicas false).t2t_device_info = some di) :
    di.num_shards = max 1 (if shard_to_cpu then num_gpus + 1 else num_gpus) := by
  simp [create_run_config] at hdi
  subst hdi
  cases shard_to_cpu <;> simp

/-- Witness for C7 with `num_gpus = 2` and `shard_to_cpu = true`: device-info
shard count 3. -/
theorem device_info_shard_count_formula_witness :
    ((create_run_config "" none 1000 8 false 1000 2 "" true 1
        false).t2t_device_info = some
      { num_gpus := 2, gpu_order := "", shard_to_cpu := true,
        num_shards := 3, num_async_replicas := 1 }) ∧
    (3 : Int) = max 1 (if true then (2 : Int) + 1 else 2) := by
  refine ⟨rfl, ?_⟩
  exact device_info_shard_count_formula "" none 1000 8 false 1000 2 "" true 1
    { num_gpus := 2, gpu_order := "", shard_to_cpu := true,
      num_shards := 3, num_async_replicas := 1 } rfl

/-- Claim C8: in accelerator mode the accelerator sub-record carries exactly
the requested shard count and loop-iteration count, and the device-info
record is empty. -/
theorem run_config_tpu_mode_fields (master : String)
    (model_dir : Option String) (iterations_per_loop num_shards : Int)
    (log_device_placement : Bool) (save_checkpoints_steps num_gpus : Int)
    (gpu_order : String) (shard_to_cpu : Bool) (num_async_replicas : Int) :
    ((create_run_config master model_dir iterations_per_loop num_shards
        log_device_placement save_checkpoints_steps num_gpus gpu_order
        shard_to_cpu num_async_replicas true).tpu_config.map
      (fun tc => (tc.iterations_per_loop, tc.num_shards)) =
        some (iterations_per_loop, num_shards)) ∧
    (create_run_config master model_dir iterations_per_loop num_shards
      log_device_placement save_checkpoints_steps num_gpus gpu_order
      shard_to_cpu num_async_replicas true).t2t_device_info = none :=
  ⟨rfl, rfl⟩

/-- Claim C10: in accelerator mode the `per_host_input_for_training` flag of
the accelerator sub-record is true exactly when the requested shard count is
at most 8. -/
theorem per_host_input_iff_at_most_eight_shards (master : String)
    (model_dir : Option String) (iterations_per_loop num_shards : Int)
    (log_device_placement : Bool) (save_checkpoints_steps num_gpus : Int)
    (gpu_order : String) (shard_to_cpu : Bool) (num_async_replicas : Int)
    (tc : TPUConfig)
    (htc : (create_run_config master model_dir iterations_per_loop num_shards
      log_device_placement save_checkpoints_steps num_gpus gpu_order
      shard_to_cpu num_async_replicas true).tpu_config = some tc) :
    tc.per_host_input_for_training = true ↔ num_shards ≤ 8 := by
  simp [create_run_config] at htc
  subst htc
  simp

/-- Witness for C10 at `num_shards = 8`: the flag is set. -/
theorem per_host_input_iff_at_most_eight_shards_witness :
    sampleTpuRC.tpu_config = some
      { iterations_per_loop := 1000, num_shards := 8,
        per_host_input_for_training := true } ∧
    (true = true ↔ (8 : Int) ≤ 8) := by
  refine ⟨rfl, ?_⟩
  exact per_host_input_iff_at_most_eight_shards "" none 1000 8 false 1000 1 ""
    false 1
    { iterations_per_loop := 1000, num_shards := 8,
      per_host_input_for_training := true } rfl

/-- Claim C4: when every hyphen-separated name is registered,
`add_problem_hparams` resets the problem lists and then appends one problem
instance and one derived hyperparameter set per name, preserving the
left-to-right order of the input string, with no error. -/
theorem add_problem_hparams_all_registered (reg : Registry) (h : HParams)
    (s : String) (ps : List Problem)
    (hreg : registryLookupAll reg (splitDash s) = some ps) :
    add_problem_hparams reg h s =
      ({ h with
           problem_instances := ps,
           problems := ps.map (fun p => Problem.get_hparams p h) }, none) ∧
    ps.length = (splitDash s).length := by
  constructor
  · unfold add_problem_hparams
    rw [add_problem_hparams_loop_ok reg _ _ ps hreg]
    rfl
  · exact registryLookupAll_length reg _ ps hreg

/-- Witness for C4 on `"probA-probB"`: exactly two problem instances and two
hyperparameter sets, in that left-to-right order. -/
theorem add_problem_hparams_all_registered_witness :
    registryLookupAll sampleReg (splitDash "probA-probB") =
      some [Problem.mk 0, Problem.mk 1] ∧
    (add_problem_hparams sampleReg sampleHP "probA-probB" =
      ({ sampleHP with
           problem_instances := [Problem.mk 0, Problem.mk 1],
           problems := [Problem.mk 0, Problem.mk 1].map
             (fun p => Problem.get_hparams p sampleHP) }, none) ∧
     [Problem.mk 0, Problem.mk 1].length =
       (splitDash "probA-probB").length) := by
  refine ⟨rfl, ?_⟩
  exact add_problem_hparams_all_registered sampleReg sampleHP "probA-probB"
    [Problem.mk 0, Problem.mk 1] rfl

/-- Claim C5: when the hyphen-separated names contain an unregistered one,
`add_problem_hparams` fails with the registry's lookup error, and the
unregistered name contributes no entry to either list: the lists hold exactly
the entries of the names before it. -/
theorem add_problem_hparams_unregistered (reg : Registry) (h : HParams)
    (s : String) (pre : List String) (bad : String) (post : List String)
    (ps : List Problem)
    (hsplit : splitDash s = pre ++ bad :: post)
    (hpre : registryLookupAll reg pre = some ps)
    (hbad : reg bad = none) :
    add_problem_hparams reg h s =
      ({ h with
           problem_instances := ps,
           problems := ps.map (fun p => Problem.get_hparams p h) },
       some (lookupErrorMsg bad)) ∧
    ps.length = pre.length := by
  constructor
  · unfold add_problem_hparams
    rw [hsplit, add_problem_hparams_loop_err reg pre bad post _ ps hpre hbad]
    rfl
  · exact registryLookupAll_length reg pre ps hpre

/-- Witness for C5 on `"probA-nope-probB"` where `"nope"` is unregistered:
the result carries the lookup error and only the entry for `"probA"`. -/
theorem add_problem_hparams_unregistered_witness :
    splitDash "probA-nope-probB" = ["probA"] ++ "nope" :: ["probB"] ∧
    registryLookupAll sampleReg ["probA"] = some [Problem.mk 0] ∧
    sampleReg "nope" = none ∧
    (add_problem_hparams sampleReg sampleHP "probA-nope-probB" =
      ({ sampleHP with
           problem_instances := [Problem.mk 0],
           problems := [Problem.mk 0].map
             (fun p => Problem.get_hparams p sampleHP) },
       some (lookupErrorMsg "nope")) ∧
     [Problem.mk 0].length = ["probA"].length) := by
  refine ⟨rfl, rfl, rfl, ?_⟩
  exact add_problem_hparams_unregistered sampleReg sampleHP "probA-nope-probB"
    ["probA"] "nope" ["probB"] [Problem.mk 0] rfl rfl rfl

/-- Claim C6: the callable returned by `create_experiment_fn`, applied to a
run configuration and hyperparameters, produces the same result as calling
`create_experiment` directly on that run configuration and hyperparameters
followed by the captured extra arguments. -/
theorem create_experiment_fn_forwards (reg : Registry)
    (model_name problem_name data_dir : String)
    (train_steps eval_steps min_eval_frequency : Int) (schedule : String)
    (use_tpu : Bool) (run_config : RunConfig) (hparams : HParams) :
    create_experiment_fn reg model_name problem_name data_dir train_steps
        eval_steps min_eval_frequency schedule use_tpu run_config hparams =
      create_experiment reg run_config hparams model_name problem_name
        data_dir train_steps eval_steps min_eval_frequency schedule use_tpu :=
  rfl

/-- Claim C9: whenever `create_experiment` returns an experiment, the minimum
evaluation frequency argument is stored both as the experiment's
`min_eval_frequency` and as its `train_steps_per_iteration`, so the two
fields are always equal. -/
theorem experiment_min_eval_frequency_fields (reg : Registry) (rc : RunConfig)
    (h : HParams) (model_name problem_name data_dir : String)
    (train_steps eval_steps min_eval_frequency : Int) (schedule : String)
    (use_tpu : Bool) (e : Experiment)
    (hok : create_experiment reg rc h model_name problem_name data_dir
      train_steps eval_steps min_eval_frequency schedule use_tpu =
        Except.ok e) :
    e.min_eval_frequency = min_eval_frequency ∧
    e.train_steps_per_iteration = min_eval_frequency ∧
    e.min_eval_frequency = e.train_steps_per_iteration := by
  unfold create_experiment at hok
  dsimp only [] at hok
  split at hok
  · exact absurd hok (by simp)
  · split at hok
    · exact absurd hok (by simp)
    · split at hok
      · exact absurd hok (by simp)
      · simp only [Except.ok.injEq] at hok
        subst hok
        exact ⟨rfl, rfl, rfl⟩

/-- Witness for C9 on a concrete successful assembly with
`min_eval_frequency = 500`. -/
theorem experiment_min_eval_frequency_fields_witness :
    create_experiment sampleReg sampleGenRC sampleHP "m" "probA" "/data"
        1000 100 500 "train_and_evaluate" false = Except.ok sampleExperiment ∧
    (sampleExperiment.min_eval_frequency = 500 ∧
     sampleExperiment.train_steps_per_iteration = 500 ∧
     sampleExperiment.min_eval_frequency =
       sampleExperiment.train_steps_per_iteration) := by
  refine ⟨rfl, ?_⟩
  exact experiment_min_eval_frequency_fields sampleReg sampleGenRC sampleHP
    "m" "probA" "/data" 1000 100 500 "train_and_evaluate" false
    sampleExperiment rfl

end TpuTrainerLib
